import Mathlib

/-!
Verification of the web-UI bootstrap orchestrator (`webui/run.py`).

The script is shallowly embedded: each Python function becomes a Lean
function over an explicit environment of oracles (which packages import,
which files exist, what the socket layer answers, what the operator types).
Side effects (subprocess calls, `os.chdir`, executing the entry-point
module, starting the server) are recorded as events in a trace, and the
console prints are collected as a list of message strings.
-/

namespace Webui

/-- Outcome of the raw socket operations inside `check_port_availability`:
`ok r` means `sock.connect_ex((host, port))` returned the integer code `r`
(`0` = connection succeeded, nonzero = refused / timed out), and `raised`
means some exception was thrown by the socket operations. -/
inductive SockOutcome where
  | ok (r : Int)
  | raised
deriving DecidableEq, Repr

/-- `check_port_availability(host, port)`: probe `(host, port)` through the
socket layer; the port is reported available iff `connect_ex` returned a
nonzero code; any exception yields `False` (reported unavailable). -/
def check_port_availability (sockLayer : String → Nat → SockOutcome)
    (host : String) (port : Nat) : Bool :=
  match sockLayer host port with
  | SockOutcome.ok r => r != 0
  | SockOutcome.raised => false

/-- The fixed ordered list of required packages in `check_dependencies`. -/
def required_packages : List String :=
  ["flask", "flask_cors", "pandas", "numpy", "plotly"]

/-- The accumulation loop of `check_dependencies`: try `__import__` on each
package in order and collect the ones whose import fails (`resolves p =
false` models `ImportError` on package `p`). -/
def check_deps_loop (resolves : String → Bool) : List String → List String
  | [] => []
  | p :: rest =>
      if resolves p then check_deps_loop resolves rest
      else p :: check_deps_loop resolves rest

/-- `check_dependencies()`: returns whether all required packages import,
together with the console messages it prints. -/
def check_dependencies (resolves : String → Bool) : Bool × List String :=
  let missing := check_deps_loop resolves required_packages
  if missing.isEmpty then
    (true, ["✅ 所有依赖已安装"])
  else
    (false, ["❌ 缺少依赖: " ++ String.intercalate ", " missing,
             "请运行: pip install -r requirements.txt"])

/-- Outcome of the `pip install` subprocess in `install_dependencies`:
exit code 0, a `CalledProcessError` (nonzero exit), or any other
exception (e.g. binary not found), each carrying its message text. -/
inductive SubprocOutcome where
  | ok
  | calledProcessError (e : String)
  | otherError (e : String)
deriving DecidableEq, Repr

/-- Result of `install_dependencies`: the boolean it returns, whether the
`pip` subprocess was actually invoked, and the messages printed. -/
structure InstallResult where
  success : Bool
  subprocInvoked : Bool
  msgs : List String
deriving DecidableEq, Repr

/-- `install_dependencies()`: if `requirements.txt` next to the script does
not exist, print a message and return `False` without invoking the
subprocess; otherwise invoke `pip install -r requirements.txt` and map its
outcome to a boolean. -/
def install_dependencies (manifestExists : Bool)
    (subproc : SubprocOutcome) : InstallResult :=
  let msgs := ["正在安装依赖..."]
  if manifestExists then
    match subproc with
    | SubprocOutcome.ok =>
        ⟨true, true, msgs ++ ["✅ 依赖安装完成"]⟩
    | SubprocOutcome.calledProcessError e =>
        ⟨false, true, msgs ++ ["❌ 依赖安装失败: " ++ e]⟩
    | SubprocOutcome.otherError e =>
        ⟨false, true, msgs ++ ["❌ 安装错误: " ++ e]⟩
  else
    ⟨false, false, msgs ++ ["❌ 未找到 requirements.txt"]⟩

/-- The fixed candidate entry-point file names of `find_app_file`, in
priority order, each rooted at the script's own directory (the common
directory prefix is folded into the name). -/
def possible_paths : List String := ["app.py", "application.py", "main.py"]

/-- The search loop of `find_app_file`: return the first candidate that
exists on disk. -/
def find_first (fsExists : String → Bool) : List String → Option String
  | [] => none
  | p :: rest => if fsExists p then some p else find_first fsExists rest

/-- `find_app_file()`: first existing file among `app.py`,
`application.py`, `main.py`, or `None` if none exists. -/
def find_app_file (fsExists : String → Bool) : Option String :=
  find_first fsExists possible_paths

/-- Observable side effects of a run of `main()`, in program order:
the `pip` subprocess call, the `find_app_file` search, each
`check_port_availability` probe, the `os.chdir` to the script's directory,
the `spec.loader.exec_module` execution of the entry-point file, the start
of the browser thread, and the blocking `app.run(host, port)` call. -/
inductive Event where
  | subprocCall
  | findAppSearch
  | portProbe (port : Nat)
  | chdir (dir : String)
  | execModule
  | browserThreadStart
  | serverRun (host : String) (port : Nat)
deriving DecidableEq, Repr

/-- Terminal outcome of a run of `main()` (every `return` point and every
way the final try/except block can end). -/
inductive Outcome where
  | installFailed
  | declinedInstall
  | appFileNotFound
  | portExhausted
  | launchException
  | appObjectNotFound
  | served
  | interrupted
deriving DecidableEq, Repr

/-- How the blocking `app.run(...)` call ends: returns normally, is
interrupted by `KeyboardInterrupt`, or raises some other exception. -/
inductive ServeOutcome where
  | normal
  | keyboardInterrupt
  | exception (e : String)
deriving DecidableEq, Repr

/-- The environment a run of `main()` observes: an oracle for each
external effect the script performs.  `resolves` models `__import__` on a
required package (false = `ImportError`); `userInput` is the operator's
answer to the auto-install prompt; `manifestExists` and `subprocOutcome`
drive `install_dependencies`; `modelImportOk` is whether
`from model import ...` resolves (false = `ImportError`, which is the
failure the probe's `except ImportError` catches) with `importErr` its
message; `fsExists` drives `find_app_file`; `sockLayer` drives
`check_port_availability`; `scriptDir` is `Path(__file__).parent`;
`execExn` is `some e` when executing the entry-point module raises;
`moduleHasApp` is whether `getattr(app_module, "app", None)` is not
`None`; `serveOutcome` is how `app.run` ends. -/
structure Env where
  resolves : String → Bool
  userInput : String
  manifestExists : Bool
  subprocOutcome : SubprocOutcome
  modelImportOk : Bool
  importErr : String
  fsExists : String → Bool
  sockLayer : String → Nat → SockOutcome
  scriptDir : String
  execExn : Option String
  moduleHasApp : Bool
  serveOutcome : ServeOutcome

/-- What a run of `main()` produced: the event trace, the printed console
messages, the Launch Mode flag (`some model_available` once the capability
probe has run, `none` when the run aborted before it), the selected port
(`none` when no port was ever selected), and the terminal outcome. -/
structure RunResult where
  events : List Event
  msgs : List String
  modelAvailable : Option Bool
  selectedPort : Option Nat
  outcome : Outcome
deriving Repr

/-- The fixed fallback ports tried when 7070 is occupied, in source
order. -/
def fallback_ports : List Nat := [7071, 7072, 7073]

/-- All ports the negotiation can probe, preferred first. -/
def allPorts : List Nat := [7070, 7071, 7072, 7073]

/-- The `for alt_port in [7071, 7072, 7073]` fallback loop of `main`:
probe each in order, stop at the first available one; returns the selected
port (if any) and the list of ports actually probed, in order. -/
def try_fallbacks (avail : Nat → Bool) : List Nat → Option Nat × List Nat
  | [] => (none, [])
  | p :: rest =>
      if avail p then (some p, [p])
      else
        let r := try_fallbacks avail rest
        (r.1, p :: r.2)

/-- The whole port negotiation of `main`: probe the preferred port 7070;
if occupied, run the fallback loop.  Returns the selected port (if any)
and the probe order. -/
def negotiate_port (avail : Nat → Bool) : Option Nat × List Nat :=
  if avail 7070 then (some 7070, [7070])
  else
    let r := try_fallbacks avail fallback_ports
    (r.1, 7070 :: r.2)

/-- The troubleshooting text printed by the top-level `except Exception`
handler of `main`. -/
def launchFailMsgs (e : String) : List String :=
  ["❌ 启动失败: " ++ e,
   "故障排除提示:",
   "1. 检查端口是否被其他进程占用",
   "2. 验证所有依赖是否已安装",
   "3. 确保应用文件存在且有效",
   "4. 检查控制台输出以获取更详细的错误信息"]

/-- Messages printed by the capability probe (`from model import ...`
guarded by `except ImportError`). -/
def probeMsgs (env : Env) : List String :=
  if env.modelImportOk then ["✅ Kronos 模型库可用"]
  else ["⚠️  Kronos 模型库不可用: " ++ env.importErr, "将使用模拟预测模式"]

/-- What happens inside the final try block of `main` after `os.chdir` and
`spec.loader.exec_module`: if executing the module raised, the
`except Exception` handler reports; otherwise the `app` object is looked
up (`getattr(app_module, "app", None)`); if absent, the object-not-found
message is printed and `main` returns before any `app.run`; if present,
the browser thread is started and the blocking `app.run(debug=True,
host="0.0.0.0", port=port, use_reloader=False)` call runs until it ends.
Returns the extra events, the extra messages and the terminal outcome. -/
def launchTail (env : Env) (port : Nat) :
    List Event × List String × Outcome :=
  match env.execExn with
  | some e => ([], launchFailMsgs e, Outcome.launchException)
  | none =>
      if env.moduleHasApp then
        let sMsgs := ["✅ Web 服务器启动成功!",
                      "🌐 访问地址: http://localhost:" ++ toString port,
                      "💡 提示: 按 Ctrl+C 停止服务器"]
        let sEvs := [Event.browserThreadStart, Event.serverRun "0.0.0.0" port]
        match env.serveOutcome with
        | ServeOutcome.normal => (sEvs, sMsgs, Outcome.served)
        | ServeOutcome.keyboardInterrupt =>
            (sEvs, sMsgs ++ ["🛑 服务器已被用户停止"], Outcome.interrupted)
        | ServeOutcome.exception e =>
            (sEvs, sMsgs ++ launchFailMsgs e, Outcome.launchException)
      else
        ([], ["❌ 在应用文件中找不到 \x27app\x27 对象"],
         Outcome.appObjectNotFound)

/-- The final try block of `main`: `os.chdir(current_dir)`, execute the
entry-point module, then `launchTail`.  `evs`/`msgs` are the trace so far,
`modelAvail` the Launch Mode flag, `port` the negotiated port. -/
def launchPhase (env : Env) (evs : List Event) (msgs : List String)
    (modelAvail : Bool) (port : Nat) : RunResult :=
  let t := launchTail env port
  ⟨evs ++ [Event.chdir env.scriptDir, Event.execModule] ++ t.1,
   msgs ++ t.2.1, some modelAvail, some port, t.2.2⟩

/-- The port-negotiation section of `main` and everything after it. -/
def portPhase (env : Env) (evs : List Event) (msgs : List String)
    (modelAvail : Bool) : RunResult :=
  let avail := fun p => check_port_availability env.sockLayer "localhost" p
  let occMsgs :=
    if avail 7070 then []
    else ["❌ 端口 7070 已被占用", "请停止使用此端口的进程或选择其他端口"]
  match negotiate_port avail with
  | (none, probed) =>
      ⟨evs ++ probed.map Event.portProbe,
       msgs ++ occMsgs ++ ["在 7070-7073 范围内未找到可用端口"],
       some modelAvail, none, Outcome.portExhausted⟩
  | (some port, probed) =>
      let altMsg := if port == 7070 then []
                    else ["使用备用端口: " ++ toString port]
      launchPhase env (evs ++ probed.map Event.portProbe)
        (msgs ++ occMsgs ++ altMsg ++
         ["", "🌐 正在端口 " ++ toString port ++ " 上启动 Web 服务器..."])
        modelAvail port

/-- The part of `main` after the dependency section: the capability probe
(never fatal: an `ImportError` from `from model import ...` is caught and
only downgrades the mode flag), then `find_app_file`, then the port
negotiation and launch. -/
def afterDeps (env : Env) (evs : List Event) (msgs : List String) :
    RunResult :=
  let modelAvail := env.modelImportOk
  let msgs := msgs ++ probeMsgs env
  let evs := evs ++ [Event.findAppSearch]
  match find_app_file env.fsExists with
  | none =>
      ⟨evs, msgs ++ ["❌ 无法找到 Flask 应用文件 (app.py, application.py, 或 main.py)"],
       some modelAvail, none, Outcome.appFileNotFound⟩
  | some appFile =>
      portPhase env evs (msgs ++ ["找到应用文件: " ++ appFile]) modelAvail

/-- `input().lower()` as used on the auto-install prompt: Python's
`str.lower`, restricted to the ASCII case mapping (the only relevant one
for the `y`/`n` answer it is compared with). -/
def strLower (s : String) : String :=
  ⟨s.data.map Char.toLower⟩

/-- The banner `main` prints first: the startup line, the 50-`=` rule, and
the working-directory line. -/
def startMsgs (env : Env) : List String :=
  ["🚀 正在启动 Kronos Web UI...",
   String.mk (List.replicate 50 '='),
   "工作目录: " ++ env.scriptDir]

/-- `main()`: the whole bootstrap sequence over the environment `env`. -/
def main (env : Env) : RunResult :=
  let dep := check_dependencies env.resolves
  let msgs := startMsgs env ++ dep.2
  if dep.1 then
    afterDeps env [] msgs
  else
    let msgs := msgs ++ ["自动安装依赖? (y/n): "]
    if strLower env.userInput == "y" then
      let inst := install_dependencies env.manifestExists env.subprocOutcome
      let evs := if inst.subprocInvoked then [Event.subprocCall] else []
      if inst.success then
        afterDeps env evs (msgs ++ inst.msgs)
      else
        ⟨evs, msgs ++ inst.msgs, none, none, Outcome.installFailed⟩
    else
      ⟨[], msgs ++ ["请手动安装依赖后重试"], none, none,
       Outcome.declinedInstall⟩

/-- The ports probed in a trace, in order. -/
def probedPorts (evs : List Event) : List Nat :=
  evs.filterMap fun e =>
    match e with
    | Event.portProbe p => some p
    | _ => none

/-- A concrete environment: all dependencies import, `app.py` exists, but
every TCP connect attempt succeeds (every port occupied). -/
def envAllBusy : Env :=
  ⟨fun _ => true, "", true, SubprocOutcome.ok, true, "",
   fun f => f == "app.py", fun _ _ => SockOutcome.ok 0, "webui",
   none, true, ServeOutcome.normal⟩

/-- A concrete environment: all dependencies import, the optional model
library does not (ImportError), `app.py` exists, every connect attempt is
refused (every port free), the module exposes `app`, the server is
eventually interrupted. -/
def envDegraded : Env :=
  ⟨fun _ => true, "", true, SubprocOutcome.ok, false, "No module named model",
   fun f => f == "app.py", fun _ _ => SockOutcome.ok 111, "webui",
   none, true, ServeOutcome.keyboardInterrupt⟩

/-- A concrete environment: everything fine up to the launch, but the
loaded module does not expose an `app` object. -/
def envNoApp : Env :=
  ⟨fun _ => true, "", true, SubprocOutcome.ok, true, "",
   fun f => f == "app.py", fun _ _ => SockOutcome.ok 111, "webui",
   none, false, ServeOutcome.normal⟩

/-- A concrete environment: no required package imports and the operator
answers `n` to the auto-install prompt. -/
def envDecline : Env :=
  ⟨fun _ => false, "n", false, SubprocOutcome.ok, true, "",
   fun f => f == "app.py", fun _ _ => SockOutcome.ok 111, "webui",
   none, true, ServeOutcome.normal⟩

end Webui

namespace Webui

/-- C7: the availability probe decides by the TCP connect attempt: a
successful connection (`connect_ex` code 0) yields `false` (occupied), and
a refused / timed-out connection (nonzero code) yields `true` (available),
for every host and port. -/
theorem check_port_availability_connect (sockLayer : String → Nat → SockOutcome)
    (host : String) (port : Nat) (r : Int) :
    (sockLayer host port = SockOutcome.ok 0 →
      check_port_availability sockLayer host port = false) ∧
    (sockLayer host port = SockOutcome.ok r → r ≠ 0 →
      check_port_availability sockLayer host port = true) := by
  constructor
  · intro h
    simp [check_port_availability, h]
  · intro h hr
    simp [check_port_availability, h, hr]

/-- Witness for C7 at a concrete socket layer answering code 0 on port 7070
and code 111 on port 7071. -/
theorem check_port_availability_connect_witness :
    (fun _ p => if p = 7070 then SockOutcome.ok 0 else SockOutcome.ok 111)
        "localhost" 7070 = SockOutcome.ok 0 ∧
    (fun _ p => if p = 7070 then SockOutcome.ok 0 else SockOutcome.ok 111)
        "localhost" 7071 = SockOutcome.ok 111 ∧ (111 : Int) ≠ 0 ∧
    check_port_availability
      (fun _ p => if p = 7070 then SockOutcome.ok 0 else SockOutcome.ok 111)
      "localhost" 7070 = false ∧
    check_port_availability
      (fun _ p => if p = 7070 then SockOutcome.ok 0 else SockOutcome.ok 111)
      "localhost" 7071 = true :=
  ⟨by decide, by decide, by decide,
   (check_port_availability_connect
      (fun _ p => if p = 7070 then SockOutcome.ok 0 else SockOutcome.ok 111)
      "localhost" 7070 111).1 (by decide),
   (check_port_availability_connect
      (fun _ p => if p = 7070 then SockOutcome.ok 0 else SockOutcome.ok 111)
      "localhost" 7071 111).2 (by decide) (by decide)⟩

/-- C9: the availability probe is total: whenever the internal socket
operations raise an exception, the probe returns `false` instead of
propagating it, for every host and port. -/
theorem check_port_availability_total (sockLayer : String → Nat → SockOutcome)
    (host : String) (port : Nat)
    (h : sockLayer host port = SockOutcome.raised) :
    check_port_availability sockLayer host port = false := by
  simp [check_port_availability, h]

/-- Witness for C9 at a socket layer that always raises. -/
theorem check_port_availability_total_witness :
    (fun _ _ => SockOutcome.raised) "localhost" 7070 = SockOutcome.raised ∧
    check_port_availability (fun _ _ => SockOutcome.raised) "localhost" 7070
      = false :=
  ⟨by decide,
   check_port_availability_total (fun _ _ => SockOutcome.raised)
     "localhost" 7070 (by decide)⟩

/-- C3: for every resolution pattern and every ordered package list, the
dependency-check loop returns exactly the packages that fail to resolve,
in the input's relative order (it is a sublist of the input), and the
verifier's boolean is the emptiness of that subset on the fixed required
list.  The loop is a total function: a missing item is collected, never an
error. -/
theorem check_deps_loop_spec (resolves : String → Bool) (pkgs : List String) :
    check_deps_loop resolves pkgs = pkgs.filter (fun p => !(resolves p)) ∧
    List.Sublist (check_deps_loop resolves pkgs) pkgs ∧
    (check_dependencies resolves).1
      = (required_packages.filter (fun p => !(resolves p))).isEmpty := by
  have hfilter : ∀ l : List String,
      check_deps_loop resolves l = l.filter (fun p => !(resolves p)) := by
    intro l
    induction l with
    | nil => rfl
    | cons p rest ih =>
        cases h : resolves p <;> simp [check_deps_loop, h, ih, List.filter]
  refine ⟨hfilter pkgs, ?_, ?_⟩
  · rw [hfilter pkgs]
    exact List.filter_sublist pkgs
  · simp only [check_dependencies, hfilter required_packages]
    cases h : (required_packages.filter (fun p => !(resolves p))).isEmpty <;>
      simp [h]

/-- Witness for C3: with only `pandas` failing to resolve, the loop returns
exactly `["pandas"]`. (C3's statement has no propositional hypothesis; this
records a concrete instance.) -/
theorem check_deps_loop_spec_witness :
    check_deps_loop (fun p => !(p == "pandas")) required_packages
      = required_packages.filter (fun p => !(!(p == "pandas"))) ∧
    check_deps_loop (fun p => !(p == "pandas")) required_packages
      = ["pandas"] :=
  ⟨(check_deps_loop_spec (fun p => !(p == "pandas")) required_packages).1,
   by decide⟩

/-- C4: whenever the manifest (`requirements.txt`) does not exist, the
installer returns failure, prints a descriptive message, and never invokes
the `pip` subprocess — for every possible subprocess behaviour. -/
theorem install_dependencies_no_manifest (subproc : SubprocOutcome) :
    (install_dependencies false subproc).success = false ∧
    (install_dependencies false subproc).subprocInvoked = false ∧
    "❌ 未找到 requirements.txt" ∈ (install_dependencies false subproc).msgs := by
  refine ⟨rfl, rfl, ?_⟩
  simp [install_dependencies]

/-- C5: for every filesystem state, the locator returns the first existing
candidate in the fixed order `app.py`, `application.py`, `main.py` (later
candidates are not consulted once one matches), and returns `none` exactly
when none of the three exists.  The result is a pure function of the
filesystem state, so repeating the lookup on the same state yields the
same result. -/
theorem find_app_file_spec (fsExists : String → Bool) :
    find_app_file fsExists =
      (if fsExists "app.py" then some "app.py"
       else if fsExists "application.py" then some "application.py"
       else if fsExists "main.py" then some "main.py"
       else none) ∧
    (find_app_file fsExists = none ↔
      fsExists "app.py" = false ∧ fsExists "application.py" = false ∧
      fsExists "main.py" = false) := by
  cases h1 : fsExists "app.py" <;> cases h2 : fsExists "application.py" <;>
    cases h3 : fsExists "main.py" <;>
    simp [find_app_file, find_first, possible_paths, h1, h2, h3]

end Webui

namespace Webui

/-- The negotiation characterized: it selects the first available port of
`[7070, 7071, 7072, 7073]` (none if all occupied), and probes exactly the
occupied prefix followed by the selected port. -/
theorem negotiate_port_eq (avail : Nat → Bool) :
    negotiate_port avail =
      ((allPorts.filter avail).head?,
       allPorts.takeWhile (fun p => !(avail p)) ++
         ((allPorts.filter avail).head?).toList) := by
  cases h0 : avail 7070 <;> cases h1 : avail 7071 <;>
    cases h2 : avail 7072 <;> cases h3 : avail 7073 <;>
    simp [negotiate_port, try_fallbacks, fallback_ports, allPorts,
      h0, h1, h2, h3]

/-- Probed ports distribute over trace concatenation. -/
theorem probedPorts_append (l1 l2 : List Event) :
    probedPorts (l1 ++ l2) = probedPorts l1 ++ probedPorts l2 := by
  simp [probedPorts]

/-- A `chdir` event records no probe. -/
theorem probedPorts_chdir (d : String) (l : List Event) :
    probedPorts (Event.chdir d :: l) = probedPorts l := rfl

/-- An `execModule` event records no probe. -/
theorem probedPorts_execModule (l : List Event) :
    probedPorts (Event.execModule :: l) = probedPorts l := rfl

/-- A `findAppSearch` event records no probe. -/
theorem probedPorts_findAppSearch (l : List Event) :
    probedPorts (Event.findAppSearch :: l) = probedPorts l := rfl

/-- The empty trace records no probe. -/
theorem probedPorts_nil : probedPorts [] = [] := rfl

/-- A probe event records its port. -/
theorem probedPorts_probe (p : Nat) (l : List Event) :
    probedPorts (Event.portProbe p :: l) = p :: probedPorts l := rfl

/-- A trace of probe events records exactly its ports. -/
theorem probedPorts_map (l : List Nat) :
    probedPorts (l.map Event.portProbe) = l := by
  induction l with
  | nil => rfl
  | cons p t ih =>
      simp only [List.map_cons, probedPorts, List.filterMap_cons] at ih ⊢
      simpa using ih

/-- The launch tail never probes a port. -/
theorem launchTail_probedPorts (env : Env) (port : Nat) :
    probedPorts (launchTail env port).1 = [] := by
  cases he : env.execExn <;> cases hm : env.moduleHasApp <;>
    cases hs : env.serveOutcome <;>
    simp [launchTail, he, hm, hs, probedPorts]

/-- The Launch Mode flag survives the port phase unchanged. -/
theorem portPhase_modelAvailable (env : Env) (evs : List Event)
    (msgs : List String) (m : Bool) :
    (portPhase env evs msgs m).modelAvailable = some m := by
  cases hsel : (allPorts.filter
      (fun p => check_port_availability env.sockLayer "localhost" p)).head? <;>
    simp [portPhase, negotiate_port_eq, hsel, launchPhase]

/-- The port phase only appends to the message log. -/
theorem portPhase_mem_msgs (env : Env) (evs : List Event)
    (msgs : List String) (m : Bool) (s : String) (hs : s ∈ msgs) :
    s ∈ (portPhase env evs msgs m).msgs := by
  cases hsel : (allPorts.filter
      (fun p => check_port_availability env.sockLayer "localhost" p)).head? <;>
    simp [portPhase, negotiate_port_eq, hsel, launchPhase,
      List.mem_append, hs]

/-- The port phase only appends to the event trace. -/
theorem portPhase_mem_events (env : Env) (evs : List Event)
    (msgs : List String) (m : Bool) (e : Event) (he : e ∈ evs) :
    e ∈ (portPhase env evs msgs m).events := by
  cases hsel : (allPorts.filter
      (fun p => check_port_availability env.sockLayer "localhost" p)).head? <;>
    simp [portPhase, negotiate_port_eq, hsel, launchPhase,
      List.mem_append, he]

/-- The port phase selects the first available port of the candidate
list. -/
theorem portPhase_selectedPort (env : Env) (evs : List Event)
    (msgs : List String) (m : Bool) :
    (portPhase env evs msgs m).selectedPort
      = (allPorts.filter
          (fun p => check_port_availability env.sockLayer "localhost" p)).head? := by
  cases hsel : (allPorts.filter
      (fun p => check_port_availability env.sockLayer "localhost" p)).head? <;>
    simp [portPhase, negotiate_port_eq, hsel, launchPhase]

/-- The ports probed by the port phase: the occupied prefix of the
candidate list, then the selected port if any. -/
theorem portPhase_probedPorts (env : Env) (evs : List Event)
    (msgs : List String) (m : Bool) :
    probedPorts (portPhase env evs msgs m).events
      = probedPorts evs
        ++ allPorts.takeWhile
            (fun p => !(check_port_availability env.sockLayer "localhost" p))
        ++ ((allPorts.filter
            (fun p => check_port_availability env.sockLayer "localhost" p)).head?).toList := by
  cases hsel : (allPorts.filter
      (fun p => check_port_availability env.sockLayer "localhost" p)).head? <;>
    simp [portPhase, negotiate_port_eq, hsel, launchPhase,
      probedPorts_append, probedPorts_map, launchTail_probedPorts,
      probedPorts_chdir, probedPorts_execModule, probedPorts_nil,
      probedPorts_probe]

/-- When every candidate port is occupied the port phase selects nothing,
reports exhaustion, and its trace is exactly the four probes. -/
theorem portPhase_exhausted (env : Env) (evs : List Event)
    (msgs : List String) (m : Bool)
    (hall : ∀ p ∈ allPorts,
      check_port_availability env.sockLayer "localhost" p = false) :
    (portPhase env evs msgs m).selectedPort = none ∧
    (portPhase env evs msgs m).outcome = Outcome.portExhausted ∧
    "在 7070-7073 范围内未找到可用端口" ∈ (portPhase env evs msgs m).msgs ∧
    (portPhase env evs msgs m).events = evs ++ allPorts.map Event.portProbe := by
  have h70 := hall 7070 (by simp [allPorts])
  have h71 := hall 7071 (by simp [allPorts])
  have h72 := hall 7072 (by simp [allPorts])
  have h73 := hall 7073 (by simp [allPorts])
  have hneg : negotiate_port
      (fun p => check_port_availability env.sockLayer "localhost" p)
      = (none, allPorts) := by
    simp [negotiate_port, try_fallbacks, fallback_ports, allPorts,
      h70, h71, h72, h73]
  refine ⟨?_, ?_, ?_, ?_⟩ <;> simp [portPhase, hneg, h70, allPorts]

/-- With all dependencies importable, `main` proceeds directly to the
post-dependency phase. -/
theorem main_afterDeps_eq (env : Env)
    (hdeps : (check_dependencies env.resolves).1 = true) :
    main env = afterDeps env []
      (startMsgs env ++ (check_dependencies env.resolves).2) := by
  simp [main, hdeps]

/-- With all dependencies importable and an entry-point file found, `main`
proceeds to the port phase. -/
theorem main_portPhase_eq (env : Env) (f : String)
    (hdeps : (check_dependencies env.resolves).1 = true)
    (happ : find_app_file env.fsExists = some f) :
    main env = portPhase env [Event.findAppSearch]
      (startMsgs env ++ (check_dependencies env.resolves).2 ++ probeMsgs env
        ++ ["找到应用文件: " ++ f])
      env.modelImportOk := by
  rw [main_afterDeps_eq env hdeps]
  simp [afterDeps, happ]

/-- The Launch Mode flag recorded after the dependency phase is exactly
the capability-probe result. -/
theorem afterDeps_modelAvailable (env : Env) (evs : List Event)
    (msgs : List String) :
    (afterDeps env evs msgs).modelAvailable = some env.modelImportOk := by
  cases hf : find_app_file env.fsExists <;>
    simp [afterDeps, hf, portPhase_modelAvailable]

/-- Every run of the post-dependency phase performs the entry-point search
and keeps the capability-probe messages. -/
theorem afterDeps_mem (env : Env) (evs : List Event) (msgs : List String) :
    Event.findAppSearch ∈ (afterDeps env evs msgs).events ∧
    ∀ s ∈ probeMsgs env, s ∈ (afterDeps env evs msgs).msgs := by
  cases hf : find_app_file env.fsExists with
  | none =>
      constructor
      · simp [afterDeps, hf]
      · intro s hs
        simp [afterDeps, hf, List.mem_append, hs]
  | some f =>
      constructor
      · simp only [afterDeps, hf]
        exact portPhase_mem_events _ _ _ _ _ (by simp)
      · intro s hs
        simp only [afterDeps, hf]
        exact portPhase_mem_msgs _ _ _ _ s (by simp [List.mem_append, hs])

/-- C1: starting at preferred port 7070, when 7070 is observed occupied
the negotiation probes the fallbacks in the exact order 7071, 7072, 7073
and selects the first one observed available; and when all four ports are
occupied no port is selected, the failure message is printed, and the
server run is never attempted. -/
theorem main_port_fallback (env : Env) (f : String)
    (hdeps : (check_dependencies env.resolves).1 = true)
    (happ : find_app_file env.fsExists = some f)
    (hocc : check_port_availability env.sockLayer "localhost" 7070 = false) :
    (main env).selectedPort
        = (fallback_ports.filter
            (fun p => check_port_availability env.sockLayer "localhost" p)).head? ∧
    probedPorts (main env).events
        = allPorts.takeWhile
            (fun p => !(check_port_availability env.sockLayer "localhost" p))
          ++ ((allPorts.filter
              (fun p => check_port_availability env.sockLayer "localhost" p)).head?).toList ∧
    ((∀ p ∈ allPorts,
        check_port_availability env.sockLayer "localhost" p = false) →
      (main env).selectedPort = none ∧
      (main env).outcome = Outcome.portExhausted ∧
      "在 7070-7073 范围内未找到可用端口" ∈ (main env).msgs ∧
      ∀ h p, Event.serverRun h p ∉ (main env).events) := by
  rw [main_portPhase_eq env f hdeps happ]
  have hfb : allPorts.filter
        (fun p => check_port_availability env.sockLayer "localhost" p)
      = fallback_ports.filter
        (fun p => check_port_availability env.sockLayer "localhost" p) := by
    simp [allPorts, fallback_ports, List.filter_cons, hocc]
  refine ⟨?_, ?_, ?_⟩
  · rw [portPhase_selectedPort, hfb]
  · rw [portPhase_probedPorts]
    simp [probedPorts_findAppSearch, probedPorts_nil]
  · intro hall
    have h := portPhase_exhausted env [Event.findAppSearch]
      (startMsgs env ++ (check_dependencies env.resolves).2 ++ probeMsgs env
        ++ ["找到应用文件: " ++ f])
      env.modelImportOk hall
    refine ⟨h.1, h.2.1, h.2.2.1, ?_⟩
    intro hst p
    rw [h.2.2.2]
    simp [allPorts, List.mem_append]

/-- Witness for C1: in `envAllBusy` every connect attempt succeeds, so all
four ports are occupied, no port is selected, and the run ends in port
exhaustion. -/
theorem main_port_fallback_witness :
    check_port_availability envAllBusy.sockLayer "localhost" 7070 = false ∧
    (main envAllBusy).selectedPort = none ∧
    (main envAllBusy).outcome = Outcome.portExhausted := by
  have h := main_port_fallback envAllBusy "app.py" (by decide) (by decide)
    (by decide)
  have h3 := h.2.2 (by decide)
  exact ⟨by decide, h3.1, h3.2.1⟩

/-- C2: when the optional model-library import fails (an `ImportError`,
the resolution failure the probe's handler catches), the failure never
escapes the bootstrap sequence: `main` is a total function of the
environment, sets Launch Mode to degraded (`some false`), prints the
simulated-mode message, and still performs entry-point resolution. -/
theorem bootstrap_probe_degraded (env : Env)
    (hdeps : (check_dependencies env.resolves).1 = true)
    (hprobe : env.modelImportOk = false) :
    (main env).modelAvailable = some false ∧
    Event.findAppSearch ∈ (main env).events ∧
    "将使用模拟预测模式" ∈ (main env).msgs := by
  rw [main_afterDeps_eq env hdeps]
  refine ⟨?_, (afterDeps_mem env [] _).1, ?_⟩
  · rw [afterDeps_modelAvailable, hprobe]
  · apply (afterDeps_mem env [] _).2
    simp [probeMsgs, hprobe]

/-- Witness for C2 at `envDegraded`, whose model import fails. -/
theorem bootstrap_probe_degraded_witness :
    (check_dependencies envDegraded.resolves).1 = true ∧
    envDegraded.modelImportOk = false ∧
    (main envDegraded).modelAvailable = some false ∧
    Event.findAppSearch ∈ (main envDegraded).events := by
  have h := bootstrap_probe_degraded envDegraded (by decide) (by decide)
  exact ⟨by decide, by decide, h.1, h.2.1⟩

/-- C6: when the loaded entry-point module does not expose an `app`
object, `main` ends with the distinct object-not-found outcome and
message, and the server's run operation is never invoked. -/
theorem launcher_missing_app_object (env : Env) (f : String) (port : Nat)
    (probed : List Nat)
    (hdeps : (check_dependencies env.resolves).1 = true)
    (happ : find_app_file env.fsExists = some f)
    (hport : negotiate_port
        (fun p => check_port_availability env.sockLayer "localhost" p)
        = (some port, probed))
    (hexec : env.execExn = none)
    (hnoapp : env.moduleHasApp = false) :
    (main env).outcome = Outcome.appObjectNotFound ∧
    "❌ 在应用文件中找不到 \x27app\x27 对象" ∈ (main env).msgs ∧
    ∀ h p, Event.serverRun h p ∉ (main env).events := by
  rw [main_portPhase_eq env f hdeps happ]
  have htail : launchTail env port
      = ([], ["❌ 在应用文件中找不到 \x27app\x27 对象"],
         Outcome.appObjectNotFound) := by
    simp [launchTail, hexec, hnoapp]
  refine ⟨?_, ?_, ?_⟩
  · simp [portPhase, hport, launchPhase, htail]
  · simp [portPhase, hport, launchPhase, htail, List.mem_append]
  · intro hst p
    simp [portPhase, hport, launchPhase, htail, List.mem_append,
      List.mem_map]

/-- Witness for C6 at `envNoApp`: port 7070 free, module loads but lacks
`app`. -/
theorem launcher_missing_app_object_witness :
    envNoApp.moduleHasApp = false ∧
    (main envNoApp).outcome = Outcome.appObjectNotFound ∧
    ∀ h p, Event.serverRun h p ∉ (main envNoApp).events := by
  have h := launcher_missing_app_object envNoApp "app.py" 7070 [7070]
    (by decide) (by decide) (by decide) (by decide) (by decide)
  exact ⟨by decide, h.1, h.2.2⟩

/-- C8: when required dependencies are missing and the operator declines
automatic installation, `main` prints the manual-install instruction and
aborts before port negotiation: no port is ever probed. -/
theorem deps_decline_aborts (env : Env)
    (hmiss : (check_dependencies env.resolves).1 = false)
    (hdecl : strLower env.userInput ≠ "y") :
    (main env).outcome = Outcome.declinedInstall ∧
    "请手动安装依赖后重试" ∈ (main env).msgs ∧
    ∀ p, Event.portProbe p ∉ (main env).events := by
  have hdecl2 : (strLower env.userInput == "y") = false := by
    simp only [beq_eq_false_iff_ne, ne_eq]
    exact hdecl
  refine ⟨?_, ?_, ?_⟩ <;> simp [main, hmiss, hdecl2, List.mem_append]

/-- Witness for C8 at `envDecline`: no package imports, operator answers
`n`. -/
theorem deps_decline_aborts_witness :
    (check_dependencies envDecline.resolves).1 = false ∧
    strLower envDecline.userInput ≠ "y" ∧
    (main envDecline).outcome = Outcome.declinedInstall ∧
    ∀ p, Event.portProbe p ∉ (main envDecline).events := by
  have h := deps_decline_aborts envDecline (by decide) (by decide)
  exact ⟨by decide, by decide, h.1, h.2.2⟩

/-- C10: whenever the launch phase is reached, the trace contains the
`os.chdir` to the script's own directory immediately before the dynamic
execution of the entry-point module — a process-wide effect that precedes
(and is thus observable by) the loaded application code. -/
theorem chdir_before_module_load (env : Env) (f : String) (port : Nat)
    (probed : List Nat)
    (hdeps : (check_dependencies env.resolves).1 = true)
    (happ : find_app_file env.fsExists = some f)
    (hport : negotiate_port
        (fun p => check_port_availability env.sockLayer "localhost" p)
        = (some port, probed)) :
    ∃ l1 l2, (main env).events
      = l1 ++ Event.chdir env.scriptDir :: Event.execModule :: l2 := by
  rw [main_portPhase_eq env f hdeps happ]
  refine ⟨[Event.findAppSearch] ++ probed.map Event.portProbe,
    (launchTail env port).1, ?_⟩
  simp [portPhase, hport, launchPhase]

/-- Witness for C10 at `envNoApp`. -/
theorem chdir_before_module_load_witness :
    find_app_file envNoApp.fsExists = some "app.py" ∧
    ∃ l1 l2, (main envNoApp).events
      = l1 ++ Event.chdir envNoApp.scriptDir :: Event.execModule :: l2 :=
  ⟨by decide,
   chdir_before_module_load envNoApp "app.py" 7070 [7070]
     (by decide) (by decide) (by decide)⟩

end Webui
